import Mathlib

/-!
Verification development for the geodetic coordinate-transformation and
relative-geometry engine of the SIMDIS SDK (simCore::Mgrs and the
CalcRelAbs function family), embedded shallowly in Lean 4.

The repository snapshot contains the `Mgrs` class header
(`simCore/Calc/Mgrs.h`) and the test harness
(`Testing/SimCore/CalculateLibTest.cpp`), but not the implementation
files (`Mgrs.cpp`, `CalcRelAbs.cpp`).  Where a function's body is
missing, the definition below is modelled from the specification and
the doc comments of the header; its doc comment says so explicitly.
The double-precision numeric kernels (Transverse Mercator series,
polar stereographic inverse, local-tangent-plane trigonometry) are
abstracted as parameters (`MgrsCore`, `CalcCore`): every theorem holds
for an arbitrary kernel, which is exactly the strength the claims
need, since they are about gating, routing, parsing and symmetry
rather than about the transcendental arithmetic itself.

Machine doubles are modelled as rationals (ℚ); angles appearing in
range checks are modelled in degrees so that the bounds (±80°/84°)
are rational constants.
-/

namespace SimCoreSpec

/-- Earth model selector, from `EEarthModelCalculations` as used by
`CalculateLibTest.cpp` (values `eWGS84`, `eFlatEarth`, `ePerfectSphere`,
`eTangentPlaneWGS84`). -/
inductive EEarthModelCalculations
  | eWGS84
  | eFlatEarth
  | ePerfectSphere
  | eTangentPlaneWGS84
  deriving DecidableEq, Repr

/-- Error taxonomy of the engine, from spec section 7. -/
inductive CalcError
  | modelUnsupportedError
  deriving DecidableEq, Repr

/-- Hemisphere enumeration from `Mgrs.h`. -/
inductive Hemisphere
  | UPS_SOUTH
  | UPS_NORTH
  deriving DecidableEq, Repr

/-- A 3-vector of doubles (modelled as rationals), from `simCore::Vec3`. -/
structure Vec3 where
  x : ℚ
  y : ℚ
  z : ℚ
  deriving DecidableEq, Repr

/-- `CoordinateConverter` state: the reference origin (lat, lon, alt).
The derived rotation constants are functions of the origin and are kept
abstract inside `CalcCore`. -/
structure CoordinateConverter where
  refLat : ℚ
  refLon : ℚ
  refAlt : ℚ
  deriving DecidableEq, Repr

/-- A 6-element from-vector (position + orientation), per the test
harness table: `RelAzEl`, `DRCRDownValue`, `GeodesicDRCR` take `from[6]`. -/
structure PosOri where
  pos : Vec3
  ori : Vec3
  deriving DecidableEq, Repr

/-- A 9-element vector (position + orientation + velocity), per the test
harness table: `VelocityDelta`, `ClosingVelocity`, `TotalVelocity` take
`from[9]`. -/
structure PosOriVel where
  pos : Vec3
  ori : Vec3
  vel : Vec3
  deriving DecidableEq, Repr

/-- Modelled from the spec: the double-precision numeric kernels of the
CalcRelAbs family, whose implementation file (`CalcRelAbs.cpp`) is
absent from the snapshot.  Each field is the mathematical core of one
operation, kept abstract; `toCart` is the conversion of a position into
the common Cartesian frame used by `calculateSlant` (spec section 4.3),
and `sqrtQ` abstracts the machine square root. -/
structure CalcCore where
  toCart : EEarthModelCalculations → CoordinateConverter → Vec3 → Vec3
  sqrtQ : ℚ → ℚ
  absAzElCore : EEarthModelCalculations → CoordinateConverter → Vec3 → Vec3 → ℚ × ℚ × ℚ
  relAzElCore : EEarthModelCalculations → CoordinateConverter → PosOri → Vec3 → ℚ × ℚ × ℚ
  groundDistCore : EEarthModelCalculations → CoordinateConverter → Vec3 → Vec3 → ℚ
  altitudeCore : EEarthModelCalculations → CoordinateConverter → Vec3 → Vec3 → ℚ
  drcrDownCore : EEarthModelCalculations → CoordinateConverter → PosOri → Vec3 → ℚ × ℚ × ℚ
  closingVelocityCore : EEarthModelCalculations → CoordinateConverter → PosOriVel → PosOriVel → ℚ
  velocityDeltaCore : EEarthModelCalculations → CoordinateConverter → PosOriVel → PosOriVel → ℚ
  geodesicDRCRCore : PosOri → Vec3 → ℚ × ℚ

/-- Squared Euclidean distance between two 3-vectors. -/
def sqDist (a b : Vec3) : ℚ :=
  (a.x - b.x) ^ 2 + (a.y - b.y) ^ 2 + (a.z - b.z) ^ 2

/-- Modelled from the spec: `calculateSlant` (body absent from the
snapshot) — straight-line 3-D distance between the two positions after
converting both into a common Cartesian frame; valid for all Earth
models including perfect sphere, hence it never signals an error. -/
def calculateSlant (core : CalcCore) (fromPos toPos : Vec3)
    (earth : EEarthModelCalculations) (conv : CoordinateConverter) :
    Except CalcError ℚ :=
  Except.ok (core.sqrtQ (sqDist (core.toCart earth conv fromPos) (core.toCart earth conv toPos)))

/-- Modelled from the spec: `calculateAbsAzEl` (body absent from the
snapshot) — absolute azimuth/elevation/composite angle, valid under all
Earth models, hence it never signals an error. -/
def calculateAbsAzEl (core : CalcCore) (fromPos toPos : Vec3)
    (earth : EEarthModelCalculations) (conv : CoordinateConverter) :
    Except CalcError (ℚ × ℚ × ℚ) :=
  Except.ok (core.absAzElCore earth conv fromPos toPos)

/-- Modelled from the spec: `calculateRelAzEl` (body absent from the
snapshot) — orientation-relative azimuth/elevation/composite angle;
rejected under the perfect-sphere Earth model by an explicit capability
check at the top of the operation (spec sections 4.3 and 9). -/
def calculateRelAzEl (core : CalcCore) (fromPO : PosOri) (toPos : Vec3)
    (earth : EEarthModelCalculations) (conv : CoordinateConverter) :
    Except CalcError (ℚ × ℚ × ℚ) :=
  if earth = EEarthModelCalculations.ePerfectSphere then
    Except.error CalcError.modelUnsupportedError
  else
    Except.ok (core.relAzElCore earth conv fromPO toPos)

/-- Modelled from the spec: `calculateGroundDist` (body absent from the
snapshot) — horizontal distance along the reference surface; rejected
under the perfect-sphere Earth model. -/
def calculateGroundDist (core : CalcCore) (fromPos toPos : Vec3)
    (earth : EEarthModelCalculations) (conv : CoordinateConverter) :
    Except CalcError ℚ :=
  if earth = EEarthModelCalculations.ePerfectSphere then
    Except.error CalcError.modelUnsupportedError
  else
    Except.ok (core.groundDistCore earth conv fromPos toPos)

/-- Modelled from the spec: `calculateAltitude` (body absent from the
snapshot) — signed altitude difference; rejected under the
perfect-sphere Earth model. -/
def calculateAltitude (core : CalcCore) (fromPos toPos : Vec3)
    (earth : EEarthModelCalculations) (conv : CoordinateConverter) :
    Except CalcError ℚ :=
  if earth = EEarthModelCalculations.ePerfectSphere then
    Except.error CalcError.modelUnsupportedError
  else
    Except.ok (core.altitudeCore earth conv fromPos toPos)

/-- Modelled from the spec: `calculateDRCRDownValue` (body absent from
the snapshot) — down-range, cross-range and signed down value relative
to the from-platform's heading; rejected under the perfect-sphere Earth
model. -/
def calculateDRCRDownValue (core : CalcCore) (fromPO : PosOri) (toPos : Vec3)
    (earth : EEarthModelCalculations) (conv : CoordinateConverter) :
    Except CalcError (ℚ × ℚ × ℚ) :=
  if earth = EEarthModelCalculations.ePerfectSphere then
    Except.error CalcError.modelUnsupportedError
  else
    Except.ok (core.drcrDownCore earth conv fromPO toPos)

/-- Modelled from the spec: `calculateClosingVelocity` (body absent from
the snapshot) — rate of change of slant range; rejected under the
perfect-sphere Earth model. -/
def calculateClosingVelocity (core : CalcCore) (fromPV toPV : PosOriVel)
    (earth : EEarthModelCalculations) (conv : CoordinateConverter) :
    Except CalcError ℚ :=
  if earth = EEarthModelCalculations.ePerfectSphere then
    Except.error CalcError.modelUnsupportedError
  else
    Except.ok (core.closingVelocityCore earth conv fromPV toPV)

/-- Modelled from the spec: `calculateVelocityDelta` (body absent from
the snapshot) — relative velocity magnitude; rejected under the
perfect-sphere Earth model. -/
def calculateVelocityDelta (core : CalcCore) (fromPV toPV : PosOriVel)
    (earth : EEarthModelCalculations) (conv : CoordinateConverter) :
    Except CalcError ℚ :=
  if earth = EEarthModelCalculations.ePerfectSphere then
    Except.error CalcError.modelUnsupportedError
  else
    Except.ok (core.velocityDeltaCore earth conv fromPV toPV)

/-- Modelled from the spec: `calculateGeodesicDRCR` (body absent from
the snapshot) — great-circle-based down-range/cross-range.  Its
signature takes only the two positions, matching the call site
`calculateGeodesicDRCR(from, to, &downRng, &crossRng)` in
`CalculateLibTest.cpp` line 200: no Earth model and no converter. -/
def calculateGeodesicDRCR (core : CalcCore) (fromPO : PosOri) (toPos : Vec3) :
    ℚ × ℚ :=
  core.geodesicDRCRCore fromPO toPos

/-- From `CalculateLibTest.cpp` lines 37-46: `almostEqual` compares two
doubles against a tolerance. -/
def almostEqual (v1 v2 eps : ℚ) : Bool :=
  |v1 - v2| ≤ eps

/-- The default epsilon of `almostEqual` (1e-4). -/
def defaultEps : ℚ := 1 / 10000

/-- From `CalculateLibTest.cpp` lines 193-209: `testCalculateGeodesicDRCR`
receives the Earth model and the coordinate converter from the driver
loop but passes neither to `calculateGeodesicDRCR`; it compares the two
computed components with the expected results and returns 0 on match,
1 otherwise. -/
def testCalculateGeodesicDRCR (core : CalcCore) (fromPO : PosOri) (toPos : Vec3)
    (earth : EEarthModelCalculations) (conv : CoordinateConverter)
    (result0 result1 : ℚ) : Int :=
  let dc := calculateGeodesicDRCR core fromPO toPos
  if almostEqual dc.1 result0 defaultEps && almostEqual dc.2 result1 defaultEps then 0
  else 1

/-- From `CalculateLibTest.cpp` lines 211-229: the body of
`testCalculateTotalVelocity` is `return 0; //Ned, broken` — the whole
comparison is commented out, so the function ignores every argument and
reports success. -/
def testCalculateTotalVelocity (fromPV toPV : PosOriVel) (deltaTime : ℚ)
    (earth : EEarthModelCalculations) (result : ℚ × ℚ × ℚ) : Int :=
  0

/-- Error taxonomy of the Mgrs conversion family, from spec section 7:
`parseError` for malformed strings, `rangeError` for numeric input
outside the valid domain of the ellipsoidal series. -/
inductive MgrsError
  | parseError
  | rangeError
  deriving DecidableEq, Repr

/-- Modelled from the spec: the double-precision projection kernels of
`Mgrs.cpp`, absent from the snapshot.  `tmInverse` is the inverse
Transverse Mercator series (zone, hemisphere, easting, northing ↦
latitude, longitude in degrees); `upsInverse` is the inverse polar
stereographic projection (hemisphere, easting, northing ↦ latitude,
longitude in degrees). -/
structure MgrsCore where
  tmInverse : Int → Hemisphere → ℚ → ℚ → ℚ × ℚ
  upsInverse : Hemisphere → ℚ → ℚ → ℚ × ℚ

/-- True when the character is an uppercase letter. -/
def isUpperAlpha (c : Char) : Bool :=
  'A' ≤ c && c ≤ 'Z'

/-- Latitude band letters are C through X excluding I and O
(spec section 4.2). -/
def validBandLetter (b : Char) : Bool :=
  'C' ≤ b && b ≤ 'X' && b ≠ 'I' && b ≠ 'O'

/-- Modelled from the spec: `getGridValues_` (body absent from the
snapshot; the header documents it as setting the grid-column letter
range from the UTM zone number and a pattern offset from the zone's
pattern).  Following the GEOTRANS scheme the header cites: the zone's
set number (zone mod 6, with 0 meaning 6) selects the column letter
range A-H, J-R or S-Z, and an even set number shifts the row pattern
by 500,000 m. -/
def getGridValues (zone : Int) : Char × Char × ℚ :=
  let setNumber : Int := if zone % 6 = 0 then 6 else zone % 6
  let patternOffset : ℚ := if setNumber % 2 = 1 then 0 else 500000
  if setNumber = 1 ∨ setNumber = 4 then ('A', 'H', patternOffset)
  else if setNumber = 2 ∨ setNumber = 5 then ('J', 'R', patternOffset)
  else ('S', 'Z', patternOffset)

/-- Valid GZD letters for a UTM-zone MGRS string: band letter C-X
excluding I and O, column letter within the zone's range excluding I
and O, row letter A-V excluding I and O (spec sections 4.2 and 6). -/
def validUtmLetters (zone : Int) (b c r : Char) : Bool :=
  let gv := getGridValues zone
  validBandLetter b &&
  (gv.1 ≤ c && c ≤ gv.2.1 && c ≠ 'I' && c ≠ 'O') &&
  ('A' ≤ r && r ≤ 'V' && r ≠ 'I' && r ≠ 'O')

/-- Modelled from the spec: the `UPS_Constants` table (values absent
from the snapshot; struct layout from `Mgrs.h` lines 154-166: grid
column letter low/high, grid row letter high, false easting, false
northing, indexed by the polar designator letter A/B/Y/Z).  Values
follow the GEOTRANS table the header cites. -/
def upsConstants (d : Char) : Option (Char × Char × Char × ℚ × ℚ) :=
  if d = 'A' then some ('J', 'Z', 'Z', 800000, 800000)
  else if d = 'B' then some ('A', 'R', 'Z', 2000000, 800000)
  else if d = 'Y' then some ('J', 'Z', 'P', 800000, 1300000)
  else if d = 'Z' then some ('A', 'J', 'P', 2000000, 1300000)
  else none

/-- Valid GZD letters for a polar (UPS) MGRS string: designator letter
A, B, Y or Z, column and row letters within the ranges of the
`UPS_Constants` entry for that designator, I and O excluded. -/
def validUpsLetters (d c r : Char) : Bool :=
  match upsConstants d with
  | none => false
  | some (lo, hi, rowHi, _, _) =>
      (lo ≤ c && c ≤ hi && c ≠ 'I' && c ≠ 'O') &&
      ('A' ≤ r && r ≤ rowHi && r ≠ 'I' && r ≠ 'O')

/-- Numeric value of a list of decimal digit characters. -/
def digitsToNat (ds : List Char) : Nat :=
  ds.foldl (fun a ch => 10 * a + (ch.toNat - 48)) 0

/-- Structural decomposition of an MGRS string: leading decimal digits
(the zone part), then three characters (the GZD letters), then the
remaining characters (the numeric location part).  Fails when fewer
than three characters follow the zone digits. -/
def splitMgrs (s : String) : Option (List Char × Char × Char × Char × List Char) :=
  let cs := s.toList
  let zds := cs.takeWhile (fun ch => ch.isDigit)
  match cs.drop zds.length with
  | b :: c :: r :: rest => some (zds, b, c, r, rest)
  | _ => none

/-- Validation of the decomposed MGRS parts, per the grammar of spec
section 6 and the rules of spec section 4.2: at most two zone digits;
the location part is all digits, of even length between 2 and 10
(easting and northing groups of equal length, 1-5 digits each); a zone
of 0 (or absent zone digits) selects the UPS letter rules, a zone of
1-60 selects the per-zone UTM letter rules, any other zone is
rejected. -/
def mgrsPartsValid (zds : List Char) (b c r : Char) (rest : List Char) : Bool :=
  zds.length ≤ 2 &&
  rest.all (fun ch => ch.isDigit) &&
  rest.length % 2 = 0 && 2 ≤ rest.length && rest.length ≤ 10 &&
  (if digitsToNat zds = 0 then validUpsLetters b c r
   else digitsToNat zds ≤ 60 && validUtmLetters (digitsToNat zds) b c r)

/-- Boolean grammar check for a whole MGRS string, written directly
from the grammar words of spec section 6; used to characterise what
`breakMgrsString` accepts. -/
def goodMgrs (s : String) : Bool :=
  match splitMgrs s with
  | none => false
  | some (zds, b, c, r, rest) => mgrsPartsValid zds b c r rest

/-- Modelled from the spec: `breakMgrsString` (body absent from the
snapshot) — pure decomposition of an MGRS string into zone, GZD
letters, easting and northing, failing with `parseError` on any string
the grammar rejects.  Digit groups are scaled to meters: a group of
length L stands for `digits * 10^(5-L)` m, so the output resolution is
1 m or finer (header lines 62-74). -/
def breakMgrsString (s : String) : Except MgrsError (Int × String × ℚ × ℚ) :=
  match splitMgrs s with
  | none => Except.error MgrsError.parseError
  | some (zds, b, c, r, rest) =>
      if mgrsPartsValid zds b c r rest then
        Except.ok ((digitsToNat zds : Int), String.mk [b, c, r],
          ((digitsToNat (rest.take (rest.length / 2)) * 10 ^ (5 - rest.length / 2) : ℕ) : ℚ),
          ((digitsToNat (rest.drop (rest.length / 2)) * 10 ^ (5 - rest.length / 2) : ℕ) : ℚ))
      else Except.error MgrsError.parseError

/-- Modelled from the spec: the latitude band table consulted by
`getLatitudeBandMinNorthing_` (values absent from the snapshot; struct
layout from `Mgrs.h` lines 146-152: minimum northing and northing
offset per band letter).  Values follow the GEOTRANS table the header
cites; entries exist exactly for the letters C-X excluding I and O. -/
def latitudeBandTable (b : Char) : Option (ℚ × ℚ) :=
  if b = 'C' then some (1100000, -2000000)
  else if b = 'D' then some (2000000, 2000000)
  else if b = 'E' then some (2800000, 2000000)
  else if b = 'F' then some (3700000, 2000000)
  else if b = 'G' then some (4600000, 4000000)
  else if b = 'H' then some (5500000, 4000000)
  else if b = 'J' then some (6400000, 6000000)
  else if b = 'K' then some (7300000, 6000000)
  else if b = 'L' then some (8200000, 8000000)
  else if b = 'M' then some (9100000, 8000000)
  else if b = 'N' then some (0, 0)
  else if b = 'P' then some (800000, 0)
  else if b = 'Q' then some (1700000, 0)
  else if b = 'R' then some (2600000, 2000000)
  else if b = 'S' then some (3500000, 2000000)
  else if b = 'T' then some (4400000, 4000000)
  else if b = 'U' then some (5300000, 4000000)
  else if b = 'V' then some (6200000, 6000000)
  else if b = 'W' then some (7000000, 6000000)
  else if b = 'X' then some (7900000, 6000000)
  else none

/-- Rational remainder: `a` reduced modulo `b` into `[0, b)` for
positive `b`, the meaning of "northing modulo 100,000 m" on doubles. -/
def qmod (a b : ℚ) : ℚ :=
  a - b * (Rat.floor (a / b) : ℚ)

/-- Modelled from the spec: `convertMgrstoUtm` (body absent from the
snapshot) — resolves the latitude-band letter to its
minimum-northing/offset pair by table lookup, then computes the
absolute UTM northing as the band's base northing plus the MGRS
grid-square northing taken modulo 100,000 m (spec section 4.2); fails
when the GZD is not three letters or the band letter is not in the
table.  The hemisphere is north for bands N-X, south for bands C-M.
The easting derivation from the column letter is not specified, so the
grid easting is passed through. -/
def convertMgrstoUtm (zone : Int) (gzdLetters : String) (mgrsEasting mgrsNorthing : ℚ) :
    Except MgrsError (Hemisphere × ℚ × ℚ) :=
  match gzdLetters.toList with
  | [b, _c, _r] =>
      match latitudeBandTable b with
      | none => Except.error MgrsError.parseError
      | some (minNorthing, _offset) =>
          let hemi := if 'N' ≤ b then Hemisphere.UPS_NORTH else Hemisphere.UPS_SOUTH
          Except.ok (hemi, mgrsEasting, minNorthing + qmod mgrsNorthing 100000)
  | _ => Except.error MgrsError.parseError

/-- Modelled from the spec: `convertMgrsToUps` (body absent from the
snapshot) — resolves the polar designator letter through the
`UPS_Constants` table: hemisphere south for designators A and B, north
for Y and Z; grid easting and northing are offset by the table's false
easting/northing (header lines 111-126, spec section 4.2). -/
def convertMgrsToUps (gzdLetters : String) (mgrsEasting mgrsNorthing : ℚ) :
    Except MgrsError (Hemisphere × ℚ × ℚ) :=
  match gzdLetters.toList with
  | [d, c, r] =>
      match upsConstants d with
      | none => Except.error MgrsError.parseError
      | some (lo, hi, rowHi, falseEasting, falseNorthing) =>
          if (lo ≤ c && c ≤ hi && c ≠ 'I' && c ≠ 'O') &&
             ('A' ≤ r && r ≤ rowHi && r ≠ 'I' && r ≠ 'O') then
            let hemi := if d = 'A' ∨ d = 'B' then Hemisphere.UPS_SOUTH else Hemisphere.UPS_NORTH
            Except.ok (hemi, falseEasting + qmod mgrsEasting 100000,
              falseNorthing + qmod mgrsNorthing 100000)
          else Except.error MgrsError.parseError
  | _ => Except.error MgrsError.parseError

/-- Modelled from the spec: `convertUtmToGeodetic` (body absent from
the snapshot) — inverse Transverse Mercator on the WGS84 ellipsoid,
valid only for zone 1-60 and for resulting latitudes within 80°S to
84°N; a zone outside 1-60, or an easting/northing combination that
resolves to a latitude outside that range, is reported as a
`rangeError` rather than silently clamped (header lines 94-109, spec
sections 4.2 and 7).  Latitudes are in degrees in this model. -/
def convertUtmToGeodetic (core : MgrsCore) (zone : Int) (hemisphere : Hemisphere)
    (easting northing : ℚ) : Except MgrsError (ℚ × ℚ) :=
  if zone < 1 ∨ 60 < zone then Except.error MgrsError.rangeError
  else if (core.tmInverse zone hemisphere easting northing).1 < -80 ∨
          84 < (core.tmInverse zone hemisphere easting northing).1 then
    Except.error MgrsError.rangeError
  else Except.ok (core.tmInverse zone hemisphere easting northing)

/-- Modelled from the spec: `convertUpsToGeodetic` (body absent from
the snapshot) — inverse polar stereographic projection.  The header
(lines 128-142) documents no domain validation: it only notes that
coordinates closer to the equator "may have relatively significant
errors in latitude", so the conversion always succeeds. -/
def convertUpsToGeodetic (core : MgrsCore) (hemisphere : Hemisphere)
    (easting northing : ℚ) : Except MgrsError (ℚ × ℚ) :=
  Except.ok (core.upsInverse hemisphere easting northing)

/-- The UPS leg of `convertMgrsToGeodetic`: MGRS grid values to UPS,
then UPS to geodetic. -/
def mgrsUpsPath (core : MgrsCore) (gzdLetters : String) (easting northing : ℚ) :
    Except MgrsError (ℚ × ℚ) :=
  match convertMgrsToUps gzdLetters easting northing with
  | Except.error e => Except.error e
  | Except.ok (hemi, ue, un) => convertUpsToGeodetic core hemi ue un

/-- The UTM leg of `convertMgrsToGeodetic`: MGRS grid values to UTM,
then UTM to geodetic. -/
def mgrsUtmPath (core : MgrsCore) (zone : Int) (gzdLetters : String)
    (easting northing : ℚ) : Except MgrsError (ℚ × ℚ) :=
  match convertMgrstoUtm zone gzdLetters easting northing with
  | Except.error e => Except.error e
  | Except.ok (hemi, ue, un) => convertUtmToGeodetic core zone hemi ue un

/-- Modelled from the spec: `convertMgrsToGeodetic` (body absent from
the snapshot) — parses the MGRS string with `breakMgrsString`, then
routes through UPS when the zone is 0 and through UTM when the zone is
1-60 (header lines 50-60, spec section 4.2). -/
def convertMgrsToGeodetic (core : MgrsCore) (mgrs : String) :
    Except MgrsError (ℚ × ℚ) :=
  match breakMgrsString mgrs with
  | Except.error e => Except.error e
  | Except.ok (zone, gzdLetters, easting, northing) =>
      if zone = 0 then mgrsUpsPath core gzdLetters easting northing
      else mgrsUtmPath core zone gzdLetters easting northing

/-- Claim C1: for every pair of positions and every converter,
`calculateGroundDist`, `calculateAltitude`, `calculateRelAzEl`,
`calculateDRCRDownValue`, `calculateClosingVelocity` and
`calculateVelocityDelta` fail with `ModelUnsupportedError` (and compute
no result) when the Earth model is the perfect sphere, while
`calculateSlant` and `calculateAbsAzEl` succeed on the same inputs. -/
theorem perfectSphere_gating (core : CalcCore) (p q : Vec3) (po : PosOri)
    (pv qv : PosOriVel) (conv : CoordinateConverter) :
    calculateGroundDist core p q EEarthModelCalculations.ePerfectSphere conv =
      Except.error CalcError.modelUnsupportedError ∧
    calculateAltitude core p q EEarthModelCalculations.ePerfectSphere conv =
      Except.error CalcError.modelUnsupportedError ∧
    calculateRelAzEl core po q EEarthModelCalculations.ePerfectSphere conv =
      Except.error CalcError.modelUnsupportedError ∧
    calculateDRCRDownValue core po q EEarthModelCalculations.ePerfectSphere conv =
      Except.error CalcError.modelUnsupportedError ∧
    calculateClosingVelocity core pv qv EEarthModelCalculations.ePerfectSphere conv =
      Except.error CalcError.modelUnsupportedError ∧
    calculateVelocityDelta core pv qv EEarthModelCalculations.ePerfectSphere conv =
      Except.error CalcError.modelUnsupportedError ∧
    (calculateSlant core p q EEarthModelCalculations.ePerfectSphere conv).isOk = true ∧
    (calculateAbsAzEl core p q EEarthModelCalculations.ePerfectSphere conv).isOk = true :=
  ⟨rfl, rfl, rfl, rfl, rfl, rfl, rfl, rfl⟩

/-- Claim C7: slant distance is symmetric in its two position arguments,
for every Earth model, converter and numeric kernel. -/
theorem calculateSlant_symm (core : CalcCore) (a b : Vec3)
    (earth : EEarthModelCalculations) (conv : CoordinateConverter) :
    calculateSlant core a b earth conv = calculateSlant core b a earth conv := by
  unfold calculateSlant
  have h : sqDist (core.toCart earth conv a) (core.toCart earth conv b) =
      sqDist (core.toCart earth conv b) (core.toCart earth conv a) := by
    unfold sqDist; ring
  rw [h]

/-- Claim C8: the down-range/cross-range of `calculateGeodesicDRCR` is
independent of the active Earth model and of any converter state: the
function takes neither, and the test harness that receives both from
the driver loop produces identical results for any two Earth-model /
converter choices on the same positions. -/
theorem geodesicDRCR_model_independent (core : CalcCore) (fromPO : PosOri)
    (toPos : Vec3) (e1 e2 : EEarthModelCalculations)
    (c1 c2 : CoordinateConverter) (r0 r1 : ℚ) :
    testCalculateGeodesicDRCR core fromPO toPos e1 c1 r0 r1 =
      testCalculateGeodesicDRCR core fromPO toPos e2 c2 r0 r1 ∧
    calculateGeodesicDRCR core fromPO toPos = core.geodesicDRCRCore fromPO toPos :=
  ⟨rfl, rfl⟩

/-- Claim C9: the TotalVelocity test path is disabled — for every input,
`testCalculateTotalVelocity` returns 0 (success) without invoking any
velocity computation or comparing any result. -/
theorem totalVelocity_test_disabled (fromPV toPV : PosOriVel) (dt : ℚ)
    (earth : EEarthModelCalculations) (result : ℚ × ℚ × ℚ) :
    testCalculateTotalVelocity fromPV toPV dt earth result = 0 :=
  rfl

/-- Claim C3: `breakMgrsString` accepts exactly the strings the MGRS
grammar admits (valid zone digits, valid GZD letters for the zone,
all-digit numeric part with equal-length easting/northing groups), and
the malformed strings "12AAA1234" (bad grid letters), "12ABC1234512"
(unequal easting/northing digit counts), "ABC" and "" fail with
`parseError` — and so does `convertMgrsToGeodetic` on them, for every
projection kernel, rather than returning a default coordinate. -/
theorem breakMgrsString_rejects_malformed :
    (∀ s : String, (breakMgrsString s).isOk = goodMgrs s) ∧
    breakMgrsString "12AAA1234" = Except.error MgrsError.parseError ∧
    breakMgrsString "12ABC1234512" = Except.error MgrsError.parseError ∧
    breakMgrsString "ABC" = Except.error MgrsError.parseError ∧
    breakMgrsString "" = Except.error MgrsError.parseError ∧
    (∀ core : MgrsCore,
      convertMgrsToGeodetic core "12AAA1234" = Except.error MgrsError.parseError ∧
      convertMgrsToGeodetic core "12ABC1234512" = Except.error MgrsError.parseError ∧
      convertMgrsToGeodetic core "ABC" = Except.error MgrsError.parseError ∧
      convertMgrsToGeodetic core "" = Except.error MgrsError.parseError) := by
  refine ⟨?_, rfl, rfl, rfl, rfl, fun core => ⟨rfl, rfl, rfl, rfl⟩⟩
  intro s
  unfold breakMgrsString goodMgrs
  cases hs : splitMgrs s with
  | none => rfl
  | some t =>
      obtain ⟨zds, b, c, r, rest⟩ := t
      by_cases hv : mgrsPartsValid zds b c r rest = true
      · simp [hv, Except.isOk, Except.toBool]
      · simp [hv, Except.isOk, Except.toBool]

/-- Claim C4: `convertMgrsToGeodetic` routes a parsed string with zone 0
through the UPS path (`convertMgrsToUps` then `convertUpsToGeodetic`)
and a parsed string with a non-zero zone through the UTM path, and the
parser only ever produces zone 0 or a zone in 1-60. -/
theorem convertMgrsToGeodetic_routing (core : MgrsCore) (s gzd : String) (e n : ℚ) :
    (breakMgrsString s = Except.ok (0, gzd, e, n) →
      convertMgrsToGeodetic core s = mgrsUpsPath core gzd e n) ∧
    (∀ z : Int, breakMgrsString s = Except.ok (z, gzd, e, n) → z ≠ 0 →
      convertMgrsToGeodetic core s = mgrsUtmPath core z gzd e n) ∧
    (∀ z : Int, breakMgrsString s = Except.ok (z, gzd, e, n) →
      z = 0 ∨ (1 ≤ z ∧ z ≤ 60)) := by
  refine ⟨?_, ?_, ?_⟩
  · intro h
    unfold convertMgrsToGeodetic
    rw [h]
    simp
  · intro z h hz
    unfold convertMgrsToGeodetic
    rw [h]
    simp [hz]
  · intro z h
    unfold breakMgrsString at h
    split at h
    · exact absurd h (by simp)
    · rename_i zds b c r rest hsplit
      split at h
      · rename_i hv
        simp only [Except.ok.injEq, Prod.mk.injEq] at h
        obtain ⟨hz, -, -, -⟩ := h
        by_cases h0 : digitsToNat zds = 0
        · left; omega
        · right
          simp only [mgrsPartsValid, if_neg h0, Bool.and_eq_true, decide_eq_true_eq] at hv
          have h60 : digitsToNat zds ≤ 60 := hv.2.1
          omega
      · exact absurd h (by simp)

/-- A projection kernel used to witness the routing theorem at concrete
inputs. -/
def demoMgrsCore : MgrsCore where
  tmInverse := fun _ _ _ _ => (45, 9)
  upsInverse := fun _ _ _ => (85, 0)

/-- Witness for claim C4: concrete polar string "AJA0000000000" parses
with zone 0 and routes through the UPS path; concrete mid-latitude
string "12TSA1234567890" parses with zone 12 and routes through the UTM
path. -/
theorem convertMgrsToGeodetic_routing_witness :
    breakMgrsString "AJA0000000000" = Except.ok (0, "AJA", 0, 0) ∧
    convertMgrsToGeodetic demoMgrsCore "AJA0000000000" = mgrsUpsPath demoMgrsCore "AJA" 0 0 ∧
    breakMgrsString "12TSA1234567890" = Except.ok (12, "TSA", 12345, 67890) ∧
    convertMgrsToGeodetic demoMgrsCore "12TSA1234567890" =
      mgrsUtmPath demoMgrsCore 12 "TSA" 12345 67890 ∧
    ((12 : Int) = 0 ∨ (1 ≤ (12 : Int) ∧ (12 : Int) ≤ 60)) :=
  ⟨rfl,
   (convertMgrsToGeodetic_routing demoMgrsCore "AJA0000000000" "AJA" 0 0).1 rfl,
   rfl,
   (convertMgrsToGeodetic_routing demoMgrsCore "12TSA1234567890" "TSA" 12345 67890).2.1
     12 rfl (by decide),
   (convertMgrsToGeodetic_routing demoMgrsCore "12TSA1234567890" "TSA" 12345 67890).2.2
     12 rfl⟩

/-- Claim C5: `convertUtmToGeodetic` returns `rangeError` when the zone
is outside 1-60, returns `rangeError` (rather than a clamped success)
when the easting/northing resolve to a latitude outside 80°S-84°N, and
returns the geodetic result with status 0 when the resolved latitude is
inside that range — for every projection kernel. -/
theorem convertUtmToGeodetic_range (core : MgrsCore) (zone : Int)
    (hemi : Hemisphere) (e n : ℚ) :
    (zone < 1 ∨ 60 < zone →
      convertUtmToGeodetic core zone hemi e n = Except.error MgrsError.rangeError) ∧
    (1 ≤ zone → zone ≤ 60 →
      (core.tmInverse zone hemi e n).1 < -80 ∨ 84 < (core.tmInverse zone hemi e n).1 →
      convertUtmToGeodetic core zone hemi e n = Except.error MgrsError.rangeError) ∧
    (1 ≤ zone → zone ≤ 60 →
      -80 ≤ (core.tmInverse zone hemi e n).1 → (core.tmInverse zone hemi e n).1 ≤ 84 →
      convertUtmToGeodetic core zone hemi e n = Except.ok (core.tmInverse zone hemi e n)) := by
  refine ⟨?_, ?_, ?_⟩
  · intro h
    unfold convertUtmToGeodetic
    rw [if_pos h]
  · intro h1 h2 h3
    unfold convertUtmToGeodetic
    rw [if_neg (by omega), if_pos h3]
  · intro h1 h2 h3 h4
    unfold convertUtmToGeodetic
    rw [if_neg (by omega), if_neg (by simp only [not_or, not_lt]; exact ⟨h3, h4⟩)]

/-- A projection kernel resolving to latitude 45° (in range), to
witness the range theorem. -/
def utmCoreLat45 : MgrsCore where
  tmInverse := fun _ _ _ _ => (45, 9)
  upsInverse := fun _ _ _ => (0, 0)

/-- A projection kernel resolving to latitude 89° (out of range), to
witness the range theorem. -/
def utmCoreLat89 : MgrsCore where
  tmInverse := fun _ _ _ _ => (89, 9)
  upsInverse := fun _ _ _ => (0, 0)

/-- Witness for claim C5: zone 61 is rejected; a kernel resolving to
latitude 89° is rejected for zone 30; a kernel resolving to latitude
45° succeeds for zone 30 with the geodetic result. -/
theorem convertUtmToGeodetic_range_witness :
    convertUtmToGeodetic utmCoreLat45 61 Hemisphere.UPS_NORTH 500000 0 =
      Except.error MgrsError.rangeError ∧
    convertUtmToGeodetic utmCoreLat89 30 Hemisphere.UPS_NORTH 500000 0 =
      Except.error MgrsError.rangeError ∧
    convertUtmToGeodetic utmCoreLat45 30 Hemisphere.UPS_NORTH 500000 0 =
      Except.ok (45, 9) :=
  ⟨(convertUtmToGeodetic_range utmCoreLat45 61 Hemisphere.UPS_NORTH 500000 0).1
      (by decide),
   (convertUtmToGeodetic_range utmCoreLat89 30 Hemisphere.UPS_NORTH 500000 0).2.1
      (by decide) (by decide) (by decide),
   (convertUtmToGeodetic_range utmCoreLat45 30 Hemisphere.UPS_NORTH 500000 0).2.2
      (by decide) (by decide) (by decide) (by decide)⟩

/-- Claim C6: `convertMgrstoUtm` resolves the latitude-band letter by
table lookup and returns an absolute UTM northing equal to the band's
base northing plus the MGRS grid-square northing modulo 100,000 m; a
band letter with no table entry fails with a non-zero status.  Every
letter in the table is a valid band letter (C-X excluding I and O),
and every letter of that range has a table entry. -/
theorem convertMgrstoUtm_band (zone : Int) (b c r : Char) (e n : ℚ) :
    (∀ mn off, latitudeBandTable b = some (mn, off) →
      convertMgrstoUtm zone (String.mk [b, c, r]) e n =
        Except.ok ((if 'N' ≤ b then Hemisphere.UPS_NORTH else Hemisphere.UPS_SOUTH),
          e, mn + qmod n 100000)) ∧
    (latitudeBandTable b = none →
      convertMgrstoUtm zone (String.mk [b, c, r]) e n = Except.error MgrsError.parseError) ∧
    (∀ b2 : Char, latitudeBandTable b2 ≠ none → validBandLetter b2 = true) ∧
    (['C', 'D', 'E', 'F', 'G', 'H', 'J', 'K', 'L', 'M', 'N', 'P', 'Q', 'R', 'S',
      'T', 'U', 'V', 'W', 'X'].all (fun bl => (latitudeBandTable bl).isSome)) = true := by
  refine ⟨?_, ?_, ?_, by decide⟩
  · intro mn off hb
    have hred : convertMgrstoUtm zone (String.mk [b, c, r]) e n =
        (match latitudeBandTable b with
         | none => Except.error MgrsError.parseError
         | some (minNorthing, _offset) =>
             Except.ok ((if 'N' ≤ b then Hemisphere.UPS_NORTH else Hemisphere.UPS_SOUTH),
               e, minNorthing + qmod n 100000)) := rfl
    rw [hred, hb]
  · intro hb
    have hred : convertMgrstoUtm zone (String.mk [b, c, r]) e n =
        (match latitudeBandTable b with
         | none => Except.error MgrsError.parseError
         | some (minNorthing, _offset) =>
             Except.ok ((if 'N' ≤ b then Hemisphere.UPS_NORTH else Hemisphere.UPS_SOUTH),
               e, minNorthing + qmod n 100000)) := rfl
    rw [hred, hb]
  · intro b2 hb2
    by_cases hvb : validBandLetter b2 = true
    · exact hvb
    · exfalso
      apply hb2
      have hne : ∀ ch : Char, validBandLetter ch = true → b2 ≠ ch := by
        intro ch hch heq
        rw [heq] at hvb
        exact hvb hch
      unfold latitudeBandTable
      rw [if_neg (hne 'C' (by decide)), if_neg (hne 'D' (by decide)),
        if_neg (hne 'E' (by decide)), if_neg (hne 'F' (by decide)),
        if_neg (hne 'G' (by decide)), if_neg (hne 'H' (by decide)),
        if_neg (hne 'J' (by decide)), if_neg (hne 'K' (by decide)),
        if_neg (hne 'L' (by decide)), if_neg (hne 'M' (by decide)),
        if_neg (hne 'N' (by decide)), if_neg (hne 'P' (by decide)),
        if_neg (hne 'Q' (by decide)), if_neg (hne 'R' (by decide)),
        if_neg (hne 'S' (by decide)), if_neg (hne 'T' (by decide)),
        if_neg (hne 'U' (by decide)), if_neg (hne 'V' (by decide)),
        if_neg (hne 'W' (by decide)), if_neg (hne 'X' (by decide))]

/-- Witness for claim C6: band letter C (southern hemisphere, base
northing 1,100,000 m) succeeds with northing 1,100,000 + (123,456 mod
100,000); band letter I has no table entry and fails. -/
theorem convertMgrstoUtm_band_witness :
    latitudeBandTable 'C' = some (1100000, -2000000) ∧
    convertMgrstoUtm 13 (String.mk ['C', 'E', 'F']) 54321 123456 =
      Except.ok (Hemisphere.UPS_SOUTH, 54321, 1100000 + qmod 123456 100000) ∧
    latitudeBandTable 'I' = none ∧
    convertMgrstoUtm 13 (String.mk ['I', 'E', 'F']) 54321 123456 =
      Except.error MgrsError.parseError ∧
    validBandLetter 'C' = true :=
  ⟨rfl,
   (convertMgrstoUtm_band 13 'C' 'E' 'F' 54321 123456).1 1100000 (-2000000) rfl,
   rfl,
   (convertMgrstoUtm_band 13 'I' 'E' 'F' 54321 123456).2.1 rfl,
   (convertMgrstoUtm_band 13 'C' 'E' 'F' 54321 123456).2.2.1 'C' (by decide)⟩

/-- Claim C10: `convertUpsToGeodetic` performs no polar-domain
validation — for every hemisphere and every easting/northing pair,
including ones resolving equatorward of 80°S/84°N, it returns success
with the kernel's latitude/longitude, never a `rangeError`. -/
theorem convertUpsToGeodetic_no_validation (core : MgrsCore) (hemi : Hemisphere)
    (e n : ℚ) :
    convertUpsToGeodetic core hemi e n = Except.ok (core.upsInverse hemi e n) ∧
    (convertUpsToGeodetic core hemi e n).isOk = true :=
  ⟨rfl, rfl⟩

end SimCoreSpec
